import Mathlib

/-!
Verification of the recommendation orchestration engine of the
`ventidole-recommend` repository: a shallow embedding in Lean 4 of the
cold-start ranking strategy (`api/services/cold_start_strategy.py`), the
recommendation service (`api/services/recommendation_service.py`), the
model manager lifecycle (`api/services/model_manager.py`) and the HTTP
router translation (`api/routers/recommendations.py`), together with
theorems about classification, scoring, pagination, error handling and
hot-reload semantics.

Modelling conventions:
- Python dicts become association lists `List (String × α)` (keys unique
  by construction in the source); Python sets become lists, deduplicated
  where the source builds a `set(...)`.
- Python floats become rationals `ℚ`; timestamps become rationals
  (seconds since epoch).
- The opaque trained-model primitive `model.predict` is consumed as an
  abstract score function `ℕ → ℚ`, as the spec treats it as an external
  collaborator.
- Database calls and filesystem probes become explicit oracle values
  (`Except Unit α` / `Option α`) passed to the embedded functions:
  `.error`/`none` stands for the call raising / the file being absent.
- Raised exceptions become `Except` errors; Python `list[a:b]` slicing
  becomes `(·.drop a).take (b - a)` (here always `drop offset |>.take limit`).
-/

namespace Ventidole

/-- Lookup in an association list (Python `dict.get(k)`). -/
def lookup? {α : Type} (d : List (String × α)) (k : String) : Option α :=
  (d.find? (fun p => p.1 = k)).map Prod.snd

/-- Lookup with default (Python `dict.get(k, default)`). -/
def lookupD {α : Type} (d : List (String × α)) (k : String) (default : α) : α :=
  (lookup? d k).getD default

/-- Lookup in an association list keyed by naturals (the `idx_to_item` dict). -/
def lookupNat? {α : Type} (d : List (ℕ × α)) (k : ℕ) : Option α :=
  (d.find? (fun p => p.1 = k)).map Prod.snd

/-- `UserState` enum from `cold_start_strategy.py`. -/
inductive UserState where
  | COLD_START
  | NORMAL
deriving DecidableEq, Repr

/-- One value of the `posts_data` dict fed to the cold-start strategy:
`{'metadata': {... 'tags': [...]}, 'communityId': ..., 'createdAt': ...,
'view_count': ..., 'like_count': ..., 'comment_count': ...}`.
`communityId` and `createdAt` may be missing (`None`); timestamps are
rationals in seconds; counts are integers. -/
structure PostData where
  communityId : Option String
  tags : List String
  createdAt : Option ℚ
  view_count : ℤ
  like_count : ℤ
  comment_count : ℤ
deriving DecidableEq, Repr

/-- The `ColdStartStrategy` instance state: configuration plus the data
caches populated by `load_data`. -/
structure ColdStartStrategy where
  interaction_threshold : ℕ
  recency_window_days : ℕ
  weight_community : ℚ
  weight_content : ℚ
  weight_recency : ℚ
  weight_popularity : ℚ
  user_interaction_counts : List (String × ℕ)
  user_followed_communities : List (String × List String)
  community_dominant_tags : List (String × List (String × ℕ))
  posts_data : List (String × PostData)
  community_max_engagement : List (String × ℚ)
deriving DecidableEq, Repr

/-- `ColdStartStrategy.__init__` parameter resolution: each optional
argument falls back to the config default when it is `None` — and, because
the source uses the `x or DEFAULT` idiom, also when it is falsy (zero). -/
def resolveArg {α : Type} [Zero α] [DecidableEq α] (given : Option α) (default : α) : α :=
  match given with
  | none => default
  | some v => if v = 0 then default else v

/-- `ColdStartStrategy.__init__` with the config defaults
(threshold 5, window 7 days, weights 0.45/0.25/0.20/0.10), before any
data is loaded. -/
def mkColdStartStrategy (threshold recencyWindow : Option ℕ)
    (wCommunity wContent wRecency wPopularity : Option ℚ) : ColdStartStrategy :=
  { interaction_threshold := resolveArg threshold 5
    recency_window_days := resolveArg recencyWindow 7
    weight_community := resolveArg wCommunity (45/100)
    weight_content := resolveArg wContent (25/100)
    weight_recency := resolveArg wRecency (20/100)
    weight_popularity := resolveArg wPopularity (10/100)
    user_interaction_counts := []
    user_followed_communities := []
    community_dominant_tags := []
    posts_data := []
    community_max_engagement := [] }

/-- `ColdStartStrategy.detect_user_state`: `COLD_START` iff the cached
interaction count (0 when absent) is below the threshold. -/
def detect_user_state (s : ColdStartStrategy) (user_id : String) : UserState :=
  let interaction_count := lookupD s.user_interaction_counts user_id 0
  if interaction_count < s.interaction_threshold then UserState.COLD_START
  else UserState.NORMAL

/-- `ColdStartStrategy.get_user_followed_communities`: cached set if
present, otherwise a real-time database lookup (`db` oracle); a raised
database error or an empty database result yields the empty set. The
write-back of a non-empty database result into the cache does not change
the returned value and is not modelled. -/
def get_user_followed_communities (s : ColdStartStrategy) (user_id : String)
    (db : Except Unit (List String)) : List String :=
  match lookup? s.user_followed_communities user_id with
  | some cached => cached
  | none =>
    match db with
    | Except.ok communities => if communities ≠ [] then communities.dedup else []
    | Except.error _ => []

/-- `ColdStartStrategy.compute_community_score`: binary membership gate. -/
def compute_community_score (post_community_id : String)
    (followed_communities : List String) : ℚ :=
  if post_community_id ∈ followed_communities then 1 else 0

/-- The user tag-frequency profile built inside `compute_content_score`:
for each followed community, add that community's dominant-tag counts
into a running dict. -/
def buildUserTags (community_dominant_tags : List (String × List (String × ℕ)))
    (followed : List String) : List (String × ℕ) :=
  followed.foldl
    (fun acc comm_id =>
      (lookupD community_dominant_tags comm_id []).foldl
        (fun a tc =>
          if a.any (fun p => p.1 = tc.1) then
            a.map (fun p => if p.1 = tc.1 then (p.1, p.2 + tc.2) else p)
          else a ++ [tc])
        acc)
    []

/-- `ColdStartStrategy.compute_content_score`: weighted tag overlap of the
post's tags against the user's aggregate community tag profile. -/
def compute_content_score (s : ColdStartStrategy) (post_tags : List String)
    (followed_communities : List String) : ℚ :=
  if post_tags = [] ∨ followed_communities = [] then 0
  else
    let user_tags := buildUserTags s.community_dominant_tags followed_communities
    if user_tags = [] then 0
    else
      let overlap := user_tags.filter (fun p => post_tags.contains p.1)
      if overlap = [] then 0
      else
        let overlap_weight : ℚ := (overlap.map (fun p => (p.2 : ℚ))).sum
        let total_weight : ℚ := (user_tags.map (fun p => (p.2 : ℚ))).sum
        if total_weight > 0 then overlap_weight / total_weight else 0

/-- `ColdStartStrategy.compute_recency_score`: linear decay of the post's
age in days (computed from `created_at` and `reference_time`, both in
seconds) over the configured window. -/
def compute_recency_score (s : ColdStartStrategy) (created_at reference_time : ℚ) : ℚ :=
  let age_seconds := reference_time - created_at
  let age_days := age_seconds / (24 * 3600)
  if age_days < 0 then 1
  else if age_days > (s.recency_window_days : ℚ) then 0
  else max 0 (1 - age_days / (s.recency_window_days : ℚ))

/-- `ColdStartStrategy.compute_popularity_score`: weighted engagement
normalized by the community's maximum engagement (default 1.0 when the
community is absent from the map, and forced to 1.0 when ≤ 0). -/
def compute_popularity_score (s : ColdStartStrategy) (community_id : String)
    (view_count like_count comment_count : ℤ) : ℚ :=
  let engagement : ℚ := (view_count : ℚ) + (like_count : ℚ) * 3 + (comment_count : ℚ) * 5
  let max_engagement0 := lookupD s.community_max_engagement community_id 1
  let max_engagement := if max_engagement0 ≤ 0 then 1 else max_engagement0
  min 1 (engagement / max_engagement)

/-- A scored `PostCandidate` (the dataclass of `cold_start_strategy.py`),
restricted to the fields the ranking reads after scoring. -/
structure PostCandidate where
  post_id : String
  community_id : String
  tags : List String
  community_score : ℚ
  content_score : ℚ
  recency_score : ℚ
  popularity_score : ℚ
  final_score : ℚ
deriving DecidableEq, Repr

/-- `ColdStartStrategy.compute_final_score`: configured weighted sum. -/
def compute_final_score (s : ColdStartStrategy) (c : PostCandidate) : ℚ :=
  s.weight_community * c.community_score +
  s.weight_content * c.content_score +
  s.weight_recency * c.recency_score +
  s.weight_popularity * c.popularity_score

/-- Build and score the candidate for one `posts_data` entry, given the
resolved followed-communities set (the body of the candidate loop in
`get_cold_start_recommendations`). -/
def scoreCandidate (s : ColdStartStrategy) (followed : List String)
    (reference_time : ℚ) (post_id : String) (p : PostData) (community_id : String) :
    PostCandidate :=
  let created_at := p.createdAt.getD reference_time
  let c0 : PostCandidate :=
    { post_id := post_id
      community_id := community_id
      tags := p.tags
      community_score := compute_community_score community_id followed
      content_score := compute_content_score s p.tags followed
      recency_score := compute_recency_score s created_at reference_time
      popularity_score :=
        compute_popularity_score s community_id p.view_count p.like_count p.comment_count
      final_score := 0 }
  { c0 with final_score := compute_final_score s c0 }

/-- The candidate list of `get_cold_start_recommendations`: every post of
`posts_data` whose `communityId` is present and in the followed set,
scored. -/
def coldStartCandidates (s : ColdStartStrategy) (followed : List String)
    (reference_time : ℚ) : List PostCandidate :=
  s.posts_data.filterMap (fun pe =>
    match pe.2.communityId with
    | none => none
    | some community_id =>
      if community_id ∈ followed then
        some (scoreCandidate s followed reference_time pe.1 pe.2 community_id)
      else none)

/-- Stable insertion into a list sorted descending by `key`: the new
element goes before the first element whose key is not larger. -/
def insertDescBy {α : Type} (key : α → ℚ) (a : α) : List α → List α
  | [] => [a]
  | b :: bs => if key a < key b then b :: insertDescBy key a bs else a :: b :: bs

/-- Stable sort, descending by `key` (Python
`list.sort(key=..., reverse=True)` keeps equal-keyed elements in input
order). -/
def sortDescBy {α : Type} (key : α → ℚ) : List α → List α
  | [] => []
  | a :: rest => insertDescBy key a (sortDescBy key rest)

/-- One element of the list returned by `get_cold_start_recommendations`:
`(post_id, final_score, {'metadata': ..., 'communityId': community_id})`. -/
structure RankedItem where
  post_id : String
  score : ℚ
  tags : List String
  communityId : String
deriving DecidableEq, Repr

/-- `ColdStartStrategy.get_cold_start_recommendations`: resolve the
followed set (empty set short-circuits to `([], 0)`), build and score the
candidates, sort descending by final score, paginate by
`[offset : offset + limit]`, and return the page together with the total
candidate count. -/
def get_cold_start_recommendations (s : ColdStartStrategy) (user_id : String)
    (limit offset : ℕ) (db : Except Unit (List String)) (reference_time : ℚ) :
    List RankedItem × ℕ :=
  let followed := get_user_followed_communities s user_id db
  if followed = [] then ([], 0)
  else
    let candidates := coldStartCandidates s followed reference_time
    let sorted := sortDescBy (fun c => c.final_score) candidates
    let total_count := sorted.length
    let paginated := (sorted.drop offset).take limit
    (paginated.map (fun c =>
      { post_id := c.post_id, score := c.final_score,
        tags := c.tags, communityId := c.community_id }), total_count)

/-- `ColdStartStrategy._compute_community_max_engagement`: per community
(skipping falsy community ids), the maximum of
`view + 3*like + 5*comment` over that community's posts. -/
def computeCommunityMaxEngagement (posts_data : List (String × PostData)) :
    List (String × ℚ) :=
  let entries := posts_data.filterMap (fun pe =>
    match pe.2.communityId with
    | none => none
    | some c =>
      if c = "" then none
      else some (c, (pe.2.view_count : ℚ) + (pe.2.like_count : ℚ) * 3 +
                    (pe.2.comment_count : ℚ) * 5))
  let communities := (entries.map Prod.fst).dedup
  communities.map (fun c =>
    (c, match (entries.filter (fun e => e.1 = c)).map Prod.snd with
        | [] => 1
        | h :: t => t.foldl max h))

/-- `ColdStartStrategy.load_data`: install the four data caches and
recompute the per-community maximum engagement. -/
def ColdStartStrategy.load_data (s : ColdStartStrategy)
    (user_interaction_counts : List (String × ℕ))
    (user_followed_communities : List (String × List String))
    (community_dominant_tags : List (String × List (String × ℕ)))
    (posts_data : List (String × PostData)) : ColdStartStrategy :=
  { s with
    user_interaction_counts := user_interaction_counts
    user_followed_communities := user_followed_communities
    community_dominant_tags := community_dominant_tags
    posts_data := posts_data
    community_max_engagement := computeCommunityMaxEngagement posts_data }

/-- The exception taxonomy of `api/exceptions.py` as surfaced through the
recommendation service. -/
inductive RecError where
  | userNotFound (user_id : String)
  | noRecommendations (user_id : String)
  | modelNotLoaded (message : String)
deriving DecidableEq, Repr

/-- `PaginationMetadata` response schema. -/
structure PaginationMetadata where
  total : ℕ
  limit : ℕ
  offset : ℕ
  has_more : Bool
deriving DecidableEq, Repr

/-- `PostRecommendation` response schema (metadata dict abstracted away:
no claim reads it). -/
structure PostRecommendation where
  post_id : String
  score : ℚ
deriving DecidableEq, Repr

/-- `RecommendationResponse` response schema; `strategy` is optional with
default `None`. -/
structure RecommendationResponse where
  user_id : String
  recommendations : List PostRecommendation
  pagination : PaginationMetadata
  strategy : Option String
deriving DecidableEq, Repr

/-- `RecommendationService._get_cold_start_recommendations`: run the
cold-start ranking, fail with `NoRecommendationsException` when the page
is empty at offset 0, otherwise wrap the page with pagination metadata
whose total is `min(total_count, total_to_generate)`. -/
def service_get_cold_start_recommendations (s : ColdStartStrategy) (user_id : String)
    (limit offset total_to_generate : ℕ) (db : Except Unit (List String))
    (reference_time : ℚ) : Except RecError RecommendationResponse :=
  let rt := get_cold_start_recommendations s user_id limit offset db reference_time
  if rt.1 = [] ∧ offset = 0 then Except.error (RecError.noRecommendations user_id)
  else
    let recommendations := rt.1.map (fun r =>
      ({ post_id := r.post_id, score := r.score } : PostRecommendation))
    let effective_total := min rt.2 total_to_generate
    Except.ok
      { user_id := user_id
        recommendations := recommendations
        pagination :=
          { total := effective_total, limit := limit, offset := offset,
            has_more := decide (offset + limit < effective_total) }
        strategy := some "cold_start" }

/-- The `top_indices` of `_get_hybrid_recommendations`:
`np.argsort(-scores)[:total_to_generate]` — all item indices ordered by
descending predicted score (tie order is unspecified in the source; a
deterministic stable sort is used here), truncated to
`total_to_generate`. -/
def hybridTopIndices (scores : ℕ → ℚ) (num_items total_to_generate : ℕ) : List ℕ :=
  (sortDescBy scores (List.range num_items)).take total_to_generate

/-- `RecommendationService._get_hybrid_recommendations`: predict scores
for all items (the opaque `model.predict` is consumed as `scores`), keep
the top `total_to_generate`, paginate, fail with
`NoRecommendationsException` when the page is empty at offset 0, and
resolve item indices back to post ids (skipping unknown indices). -/
def service_get_hybrid_recommendations (scores : ℕ → ℚ) (num_items : ℕ)
    (idx_to_item : List (ℕ × String)) (user_id : String)
    (limit offset total_to_generate : ℕ) : Except RecError RecommendationResponse :=
  let top_indices := hybridTopIndices scores num_items total_to_generate
  let paginated_indices := (top_indices.drop offset).take limit
  if paginated_indices = [] ∧ offset = 0 then
    Except.error (RecError.noRecommendations user_id)
  else
    let recommendations := paginated_indices.filterMap (fun idx =>
      (lookupNat? idx_to_item idx).map (fun post_id =>
        ({ post_id := post_id, score := scores idx } : PostRecommendation)))
    Except.ok
      { user_id := user_id
        recommendations := recommendations
        pagination :=
          { total := total_to_generate, limit := limit, offset := offset,
            has_more := decide (offset + limit < total_to_generate) }
        strategy := some "hybrid" }

/-- The LightFM `Dataset` as consumed by the manager: `dataset.mapping()`
yields the user and item id→index mappings. -/
structure Dataset where
  userMapping : List (String × ℕ)
  itemMapping : List (String × ℕ)
deriving DecidableEq, Repr

/-- `{v: k for k, v in mapping.items()}`. -/
def invertMapping (m : List (String × ℕ)) : List (ℕ × String) :=
  m.map (fun p => (p.2, p.1))

/-- The mutable field state of a `ModelManager` instance. Opaque objects
(the LightFM model, the feature matrices) are tracked by identity as
`Option String` references. -/
structure ModelManagerState where
  model : Option String
  dataset : Option Dataset
  user_features : Option String
  item_features : Option String
  user_to_idx : List (String × ℕ)
  idx_to_user : List (ℕ × String)
  item_to_idx : List (String × ℕ)
  idx_to_item : List (ℕ × String)
  posts_metadata : List (String × PostData)
  is_loaded : Bool
  model_path : Option String
  model_mtime : Option ℚ
  last_reload_time : Option ℚ
  cold_start_strategy : Option ColdStartStrategy
  user_followed_communities : List (String × List String)
  all_users : List String
deriving DecidableEq, Repr

/-- `ModelManager.__init__`. -/
def initialModelManager : ModelManagerState :=
  { model := none, dataset := none, user_features := none, item_features := none,
    user_to_idx := [], idx_to_user := [], item_to_idx := [], idx_to_item := [],
    posts_metadata := [], is_loaded := false, model_path := none,
    model_mtime := none, last_reload_time := none, cold_start_strategy := none,
    user_followed_communities := [], all_users := [] }

/-- `ModelManager.is_known_user`: cached hit returns true; otherwise a
real-time `check_user_exists` database call decides, and any raised
database error yields false. The write-back of a positive result into the
cache does not change the returned value and is not modelled. -/
def is_known_user (mgr : ModelManagerState) (user_id : String)
    (dbUserExists : Except Unit Bool) : Bool :=
  if user_id ∈ mgr.all_users then true
  else
    match dbUserExists with
    | Except.ok found => found
    | Except.error _ => false

/-- `ModelManager.is_user_in_model`. -/
def is_user_in_model (mgr : ModelManagerState) (user_id : String) : Bool :=
  (lookup? mgr.user_to_idx user_id).isSome

/-- `ModelManager.get_user_index`. -/
def get_user_index (mgr : ModelManagerState) (user_id : String) : Option ℕ :=
  lookup? mgr.user_to_idx user_id

/-- `RecommendationService.get_user_recommendations`: resolve existence
(`UserNotFoundException` when unknown), classify the user, and route to
the cold-start strategy (cold-start state or absent from the model) or the
hybrid trained-model path. -/
def get_user_recommendations (mgr : ModelManagerState) (user_id : String)
    (limit offset total_to_generate : ℕ)
    (dbUserExists : Except Unit Bool) (dbFollowed : Except Unit (List String))
    (reference_time : ℚ) (scores : ℕ → ℚ) : Except RecError RecommendationResponse :=
  let is_known := is_known_user mgr user_id dbUserExists
  let is_in_model := is_user_in_model mgr user_id
  if is_known = false then Except.error (RecError.userNotFound user_id)
  else
    match mgr.cold_start_strategy with
    | none => Except.error (RecError.modelNotLoaded "Cold-start strategy not initialized")
    | some cold_start =>
      if detect_user_state cold_start user_id = UserState.COLD_START ∨ is_in_model = false then
        service_get_cold_start_recommendations cold_start user_id limit offset
          total_to_generate dbFollowed reference_time
      else
        service_get_hybrid_recommendations scores mgr.item_to_idx.length mgr.idx_to_item
          user_id limit offset total_to_generate

/-- Outcome at the HTTP boundary of `routers/recommendations.py`. -/
inductive RouterOutcome where
  | success (response : RecommendationResponse)
  | httpError (status_code : ℕ) (error_code : String)
deriving DecidableEq, Repr

/-- The exception handling of the `GET /recommendations/{user_id}`
endpoint: success passes through; `UserNotFoundException` maps to HTTP 404
`USER_NOT_FOUND`; `NoRecommendationsException` maps to a success envelope
with an empty list, total 0 and `has_more = false`; any other exception
maps to HTTP 500 `INTERNAL_ERROR`. -/
def route_get_user_recommendations (user_id : String) (limit offset : ℕ)
    (result : Except RecError RecommendationResponse) : RouterOutcome :=
  match result with
  | Except.ok r => RouterOutcome.success r
  | Except.error (RecError.userNotFound _) => RouterOutcome.httpError 404 "USER_NOT_FOUND"
  | Except.error (RecError.noRecommendations _) =>
      RouterOutcome.success
        { user_id := user_id
          recommendations := []
          pagination := { total := 0, limit := limit, offset := offset, has_more := false }
          strategy := none }
  | Except.error (RecError.modelNotLoaded _) => RouterOutcome.httpError 500 "INTERNAL_ERROR"

/-- The serialized bundle read by `storage.save_load.load_model`: the
trained model plus optionally saved dataset and feature matrices (absent
for legacy bundles). -/
structure LoadedBundle where
  model : String
  savedDataset : Option Dataset
  savedUserFeatures : Option String
  savedItemFeatures : Option String
deriving Repr

/-- One row of the `posts_df` bulk load (`id`, `metadata.tags`,
`communityId`). -/
structure PostRow where
  id : String
  tags : List String
  communityId : Option String
deriving Repr

/-- The four bulk database loads at the top of
`load_recommendation_model` (users, posts, interactions,
community-follower edges). -/
structure DbBulk where
  users : List String
  posts : List PostRow
  interactions : ℕ
  community_followers : List (String × String)
deriving Repr

/-- The three independently-failing database loads inside
`_initialize_cold_start_strategy`; each failure is caught and replaced by
an empty/fallback value. -/
structure ColdStartDataOracle where
  interaction_counts : Except Unit (List (String × ℕ))
  community_tag_rows : Except Unit (List (String × String × ℕ))
  posts_engagement : Except Unit (List (String × PostData))
deriving Repr

/-- The external world of one load attempt: the artifact read, the bulk
database loads, the legacy `build_dataset` rebuild, the cold-start data
loads, the artifact file's current modification time (`none` when the
file does not exist) and the wall clock. -/
structure LoadOracle where
  load_model : Except String LoadedBundle
  load_db : Except String DbBulk
  build_dataset : Except String (Dataset × String × String)
  cold_start_data : ColdStartDataOracle
  file_mtime : Option ℚ
  now : ℚ
deriving Repr

/-- The `user -> followed communities` map built row by row in
`_initialize_cold_start_strategy`. -/
def buildUserFollowedCommunities (rows : List (String × String)) :
    List (String × List String) :=
  rows.foldl (fun acc r =>
    if acc.any (fun p => p.1 = r.1) then
      acc.map (fun p =>
        if p.1 = r.1 then (p.1, if r.2 ∈ p.2 then p.2 else p.2 ++ [r.2]) else p)
    else acc ++ [(r.1, [r.2])]) []

/-- Python dict assignment `d[k] = v` on an association list. -/
def dictSet (d : List (String × ℕ)) (k : String) (v : ℕ) : List (String × ℕ) :=
  if d.any (fun p => p.1 = k) then d.map (fun p => if p.1 = k then (p.1, v) else p)
  else d ++ [(k, v)]

/-- The nested `communityId -> tag -> count` dict built row by row from
the `load_community_dominant_tags` result. -/
def buildCommunityDominantTags (rows : List (String × String × ℕ)) :
    List (String × List (String × ℕ)) :=
  rows.foldl (fun acc r =>
    if acc.any (fun p => p.1 = r.1) then
      acc.map (fun p => if p.1 = r.1 then (p.1, dictSet p.2 r.2.1 r.2.2) else p)
    else acc ++ [(r.1, [(r.2.1, r.2.2)])]) []

/-- The `posts_metadata` cache built from `posts_df`: per post only
`metadata` (tags) and `communityId`; no timestamps or counters (they
default when this cache is used as the cold-start fallback). -/
def buildPostsMetadata (posts : List PostRow) : List (String × PostData) :=
  posts.map (fun r =>
    (r.id, { communityId := r.communityId, tags := r.tags, createdAt := none,
             view_count := 0, like_count := 0, comment_count := 0 }))

/-- `ModelManager._initialize_cold_start_strategy`: a fresh default
`ColdStartStrategy`, the followed-communities map from the follower
edges, and the three fallback-guarded data loads, installed via
`load_data`. -/
def initialize_cold_start_strategy (mgr : ModelManagerState)
    (community_followers : List (String × String)) (o : ColdStartDataOracle) :
    ModelManagerState :=
  let cs0 := mkColdStartStrategy none none none none none none
  let ufc := buildUserFollowedCommunities community_followers
  let counts := match o.interaction_counts with
    | Except.ok c => c
    | Except.error _ => []
  let tags := match o.community_tag_rows with
    | Except.ok rows => buildCommunityDominantTags rows
    | Except.error _ => []
  let posts_data := match o.posts_engagement with
    | Except.ok pd => pd
    | Except.error _ => mgr.posts_metadata
  let cs := cs0.load_data counts ufc tags posts_data
  { mgr with cold_start_strategy := some cs, user_followed_communities := ufc }

/-- `ModelManager.load_recommendation_model`: the sequential in-place
field mutation of the manager. Each failing step raises
`ModelNotLoadedException` and leaves the fields assigned so far as they
are (there is no rollback in the source). Returns the raised error or
unit, paired with the manager state after the attempt. -/
def load_recommendation_model (mgr : ModelManagerState) (o : LoadOracle)
    (path : String) : Except String Unit × ModelManagerState :=
  match o.load_model with
  | Except.error e => (Except.error ("Failed to load model: " ++ e), mgr)
  | Except.ok bundle =>
    let mgr1 := { mgr with model := some bundle.model }
    match o.load_db with
    | Except.error e => (Except.error ("Failed to load model: " ++ e), mgr1)
    | Except.ok db =>
      let mgr2 := { mgr1 with all_users := db.users.dedup }
      let featStep : Except String (Dataset × String × String) :=
        match bundle.savedDataset, bundle.savedUserFeatures, bundle.savedItemFeatures with
        | some ds, some uf, some itf => Except.ok (ds, uf, itf)
        | _, _, _ => o.build_dataset
      match featStep with
      | Except.error e => (Except.error ("Failed to load model: " ++ e), mgr2)
      | Except.ok dsf =>
        let ds := dsf.1
        let mgr3 := { mgr2 with
          dataset := some ds, user_features := some dsf.2.1, item_features := some dsf.2.2,
          user_to_idx := ds.userMapping, item_to_idx := ds.itemMapping,
          idx_to_user := invertMapping ds.userMapping,
          idx_to_item := invertMapping ds.itemMapping,
          posts_metadata := buildPostsMetadata db.posts }
        let mgr4 := initialize_cold_start_strategy mgr3 db.community_followers o.cold_start_data
        let mgr5 := { mgr4 with
          model_path := some path
          model_mtime := match o.file_mtime with
            | some t => some t
            | none => mgr4.model_mtime
          last_reload_time := some o.now
          is_loaded := true }
        (Except.ok (), mgr5)

/-- `ModelManager.check_model_file_updated`: false when no path is
configured or the file is gone; true when no modification time was
recorded; otherwise true exactly when the current modification time is
strictly greater than the recorded one. -/
def check_model_file_updated (mgr : ModelManagerState) (file_mtime : Option ℚ) : Bool :=
  match mgr.model_path with
  | none => false
  | some _ =>
    match file_mtime with
    | none => false
    | some current =>
      match mgr.model_mtime with
      | none => true
      | some recorded => decide (recorded < current)

/-- The reload result dict (`reloaded` flag plus `reason`). -/
structure ReloadOutcome where
  reloaded : Bool
  reason : String
deriving DecidableEq, Repr

/-- `ModelManager.reload_model`: no-op with `{reloaded: false}` when the
file is not newer; otherwise rerun `load_recommendation_model` in place,
reporting `{reloaded: true}` on success and raising
`ModelNotLoadedException` on failure. -/
def reload_model (mgr : ModelManagerState) (o : LoadOracle) :
    Except String ReloadOutcome × ModelManagerState :=
  match mgr.model_path with
  | none => (Except.error "No model path configured", mgr)
  | some path =>
    if check_model_file_updated mgr o.file_mtime then
      match load_recommendation_model mgr o path with
      | (Except.ok _, mgr1) =>
        (Except.ok { reloaded := true, reason := "Model file modified" }, mgr1)
      | (Except.error e, mgr1) =>
        (Except.error ("Model reload failed: " ++ e), mgr1)
    else
      (Except.ok { reloaded := false, reason := "Model file not modified" }, mgr)

/-- The post age in days as computed inside `compute_recency_score`
(timestamps in seconds). -/
def ageDays (created_at reference_time : ℚ) : ℚ :=
  (reference_time - created_at) / (24 * 3600)

/-- The `pagination.total` of a successful service response. -/
def respTotal : Except RecError RecommendationResponse → Option ℕ
  | Except.ok r => some r.pagination.total
  | Except.error _ => none

/-- A post fixture: lives in community `c1`, created at time 0, one
view. -/
def samplePost : PostData :=
  { communityId := some "c1", tags := [], createdAt := some 0,
    view_count := 1, like_count := 0, comment_count := 0 }

/-- A strategy fixture with the config defaults, one user `u1` following
community `c1`, and three posts in `c1`. -/
def threeCandidateStrategy : ColdStartStrategy :=
  { interaction_threshold := 5, recency_window_days := 7,
    weight_community := 45/100, weight_content := 25/100,
    weight_recency := 20/100, weight_popularity := 10/100,
    user_interaction_counts := [("u1", 3)],
    user_followed_communities := [("u1", ["c1"])],
    community_dominant_tags := [],
    posts_data := [("p1", samplePost), ("p2", samplePost), ("p3", samplePost)],
    community_max_engagement := [("c1", 10)] }

/-- A manager fixture representing a healthy loaded state with an old
model and one mapped user. -/
def loadedManager : ModelManagerState :=
  { initialModelManager with
    model := some "model-old"
    user_to_idx := [("u1", 0)]
    idx_to_user := [(0, "u1")]
    item_to_idx := [("p1", 0)]
    idx_to_item := [(0, "p1")]
    is_loaded := true
    model_path := some "hybrid_model.pkl"
    model_mtime := some 100
    all_users := ["u1"] }

/-- A cold-start data oracle whose three loads all fail (every failure is
caught with a fallback in the source). -/
def failingColdStartData : ColdStartDataOracle :=
  { interaction_counts := Except.error ()
    community_tag_rows := Except.error ()
    posts_engagement := Except.error () }

/-- A load oracle for a reload attempt where the artifact file is newer,
its read succeeds with a fresh model, but the bulk database load then
raises. -/
def oracleDbDown : LoadOracle :=
  { load_model := Except.ok
      { model := "model-new", savedDataset := none,
        savedUserFeatures := none, savedItemFeatures := none }
    load_db := Except.error "database connection failed"
    build_dataset := Except.error "unused"
    cold_start_data := failingColdStartData
    file_mtime := some 200
    now := 1000 }

/-- A load oracle for a reload attempt where the artifact file is newer
but its very first read raises. -/
def oracleModelFileBroken : LoadOracle :=
  { load_model := Except.error "corrupt pickle"
    load_db := Except.error "unused"
    build_dataset := Except.error "unused"
    cold_start_data := failingColdStartData
    file_mtime := some 200
    now := 1000 }

/-- A load oracle whose artifact file carries the same modification time
the manager recorded. -/
def oracleUnchanged : LoadOracle :=
  { load_model := Except.error "never read"
    load_db := Except.error "never read"
    build_dataset := Except.error "never read"
    cold_start_data := failingColdStartData
    file_mtime := some 100
    now := 1000 }

/-- A load oracle whose artifact file carries an OLDER modification time
than the one the manager recorded (e.g. an older artifact restored over
the current one). -/
def oracleOlderFile : LoadOracle :=
  { load_model := Except.ok
      { model := "model-rollback", savedDataset := none,
        savedUserFeatures := none, savedItemFeatures := none }
    load_db := Except.error "never read"
    build_dataset := Except.error "never read"
    cold_start_data := failingColdStartData
    file_mtime := some 50
    now := 1000 }

/-- A load oracle for a fully successful reload delivering a bundle with
saved dataset and feature matrices, whose user mapping maps `u2`. -/
def oracleFreshSuccess : LoadOracle :=
  { load_model := Except.ok
      { model := "model-new"
        savedDataset := some { userMapping := [("u2", 0)], itemMapping := [("p2", 0)] }
        savedUserFeatures := some "uf-new"
        savedItemFeatures := some "if-new" }
    load_db := Except.ok
      { users := ["u1", "u2"], posts := [], interactions := 0, community_followers := [] }
    build_dataset := Except.error "unused"
    cold_start_data := failingColdStartData
    file_mtime := some 200
    now := 1000 }

theorem length_insertDescBy {α : Type} (key : α → ℚ) (a : α) (l : List α) :
    (insertDescBy key a l).length = l.length + 1 := by
  induction l with
  | nil => rfl
  | cons b bs ih =>
    simp only [insertDescBy]
    split
    all_goals simp [ih]

theorem length_sortDescBy {α : Type} (key : α → ℚ) (l : List α) :
    (sortDescBy key l).length = l.length := by
  induction l with
  | nil => rfl
  | cons a rest ih => simp [sortDescBy, length_insertDescBy, ih]

theorem mem_insertDescBy {α : Type} (key : α → ℚ) (a x : α) (l : List α) :
    x ∈ insertDescBy key a l ↔ x = a ∨ x ∈ l := by
  induction l with
  | nil => simp [insertDescBy]
  | cons b bs ih =>
    simp only [insertDescBy]
    split
    all_goals simp only [List.mem_cons, ih]
    all_goals tauto

theorem mem_sortDescBy {α : Type} (key : α → ℚ) (x : α) (l : List α) :
    x ∈ sortDescBy key l ↔ x ∈ l := by
  induction l with
  | nil => simp [sortDescBy]
  | cons a rest ih =>
    simp only [sortDescBy, mem_insertDescBy, List.mem_cons, ih]

/-- C4: classification returns `COLD_START` exactly when the cached
interaction count is strictly below the threshold, `NORMAL` at or above
it; a user with no recorded count is classified with count 0; the default
threshold is 5. -/
theorem C4_detect_user_state (s : ColdStartStrategy) (user_id : String) :
    (detect_user_state s user_id = UserState.COLD_START ↔
      lookupD s.user_interaction_counts user_id 0 < s.interaction_threshold) ∧
    (detect_user_state s user_id = UserState.NORMAL ↔
      s.interaction_threshold ≤ lookupD s.user_interaction_counts user_id 0) ∧
    (lookup? s.user_interaction_counts user_id = none →
      detect_user_state s user_id =
        (if 0 < s.interaction_threshold then UserState.COLD_START else UserState.NORMAL)) ∧
    (mkColdStartStrategy none none none none none none).interaction_threshold = 5 := by
  refine ⟨?_, ?_, ?_, rfl⟩
  · simp only [detect_user_state]
    split
    all_goals simp_all
  · simp only [detect_user_state]
    split
    all_goals simp_all
  · intro h
    simp only [detect_user_state]
    simp [lookupD, h]

/-- Witness for C4: a user absent from the interaction-count cache is
classified `COLD_START` under the default threshold 5. -/
theorem C4_detect_user_state_witness :
    detect_user_state threeCandidateStrategy "ghost" = UserState.COLD_START :=
  (C4_detect_user_state threeCandidateStrategy "ghost").1.mpr (by decide)

theorem compute_recency_score_eq (s : ColdStartStrategy) (created ref : ℚ) :
    compute_recency_score s created ref =
      if ageDays created ref < 0 then 1
      else if (s.recency_window_days : ℚ) < ageDays created ref then 0
      else max 0 (1 - ageDays created ref / (s.recency_window_days : ℚ)) := rfl

/-- C6: the recency score is 1 at non-positive age, 0 beyond the window,
`1 − age/window` inside the window, and monotonically non-increasing in
the age on `[0, window]` (window positive; default 7 days). -/
theorem C6_recency_score (s : ColdStartStrategy) (created ref c1 c2 : ℚ)
    (hw : 0 < s.recency_window_days) :
    (ageDays created ref ≤ 0 → compute_recency_score s created ref = 1) ∧
    ((s.recency_window_days : ℚ) < ageDays created ref →
      compute_recency_score s created ref = 0) ∧
    (0 ≤ ageDays created ref → ageDays created ref ≤ (s.recency_window_days : ℚ) →
      compute_recency_score s created ref =
        1 - ageDays created ref / (s.recency_window_days : ℚ)) ∧
    (0 ≤ ageDays c1 ref → ageDays c1 ref ≤ ageDays c2 ref →
      ageDays c2 ref ≤ (s.recency_window_days : ℚ) →
      compute_recency_score s c2 ref ≤ compute_recency_score s c1 ref) := by
  have hw0 : (0 : ℚ) < (s.recency_window_days : ℚ) := by exact_mod_cast hw
  have key : ∀ a : ℚ, 0 ≤ a → a ≤ (s.recency_window_days : ℚ) →
      max 0 (1 - a / (s.recency_window_days : ℚ)) = 1 - a / (s.recency_window_days : ℚ) := by
    intro a ha haw
    refine max_eq_right ?_
    have hq : a / (s.recency_window_days : ℚ) ≤ 1 := (div_le_one hw0).mpr haw
    linarith
  refine ⟨?_, ?_, ?_, ?_⟩
  · intro h
    rw [compute_recency_score_eq]
    rcases lt_or_eq_of_le h with h0 | h0
    · simp [h0]
    · rw [h0]
      have h1 : ¬ ((0 : ℚ) < 0) := lt_irrefl 0
      have h2 : ¬ ((s.recency_window_days : ℚ) < 0) := not_lt.mpr (le_of_lt hw0)
      simp [h1, h2]
  · intro h
    rw [compute_recency_score_eq]
    have h1 : ¬ (ageDays created ref < 0) := by
      push_neg
      exact le_trans (le_of_lt hw0) (le_of_lt h)
    simp [h1, h]
  · intro h0 h1
    rw [compute_recency_score_eq]
    have hn0 : ¬ (ageDays created ref < 0) := not_lt.mpr h0
    have hn1 : ¬ ((s.recency_window_days : ℚ) < ageDays created ref) := not_lt.mpr h1
    rw [if_neg hn0, if_neg hn1]
    exact key _ h0 h1
  · intro h0 h12 h2
    have h01 : 0 ≤ ageDays c2 ref := le_trans h0 h12
    have h1w : ageDays c1 ref ≤ (s.recency_window_days : ℚ) := le_trans h12 h2
    rw [compute_recency_score_eq, compute_recency_score_eq,
      if_neg (not_lt.mpr h0), if_neg (not_lt.mpr h1w),
      if_neg (not_lt.mpr h01), if_neg (not_lt.mpr h2),
      key _ h0 h1w, key _ h01 h2]
    have hdiv : ageDays c1 ref / (s.recency_window_days : ℚ) ≤
        ageDays c2 ref / (s.recency_window_days : ℚ) :=
      (div_le_div_iff_of_pos_right hw0).mpr h12
    linarith

/-- Witness for C6: with the default 7-day window, a one-day-old post
scores `6/7`. -/
theorem C6_recency_score_witness :
    compute_recency_score threeCandidateStrategy 0 86400 =
      1 - ageDays 0 86400 / ((threeCandidateStrategy.recency_window_days : ℕ) : ℚ) :=
  (C6_recency_score threeCandidateStrategy 0 86400 0 0 (by decide)).2.2.1
    (by norm_num [ageDays]) (by norm_num [ageDays, threeCandidateStrategy])

/-- C7: for non-negative counts the popularity score is
`min(1, (views + 3·likes + 5·comments) / maxEngagement)` with
`maxEngagement` taken as 1 when absent or ≤ 0, and it always lies in
`[0, 1]`. -/
theorem C7_popularity_score (s : ColdStartStrategy) (community_id : String)
    (v l c : ℤ) (hv : 0 ≤ v) (hl : 0 ≤ l) (hc : 0 ≤ c) :
    (compute_popularity_score s community_id v l c =
      min 1 (((v : ℚ) + (l : ℚ) * 3 + (c : ℚ) * 5) /
        (if lookupD s.community_max_engagement community_id 1 ≤ 0 then 1
         else lookupD s.community_max_engagement community_id 1))) ∧
    (lookup? s.community_max_engagement community_id = none →
      compute_popularity_score s community_id v l c =
        min 1 ((v : ℚ) + (l : ℚ) * 3 + (c : ℚ) * 5)) ∧
    0 ≤ compute_popularity_score s community_id v l c ∧
    compute_popularity_score s community_id v l c ≤ 1 := by
  have heng : (0 : ℚ) ≤ (v : ℚ) + (l : ℚ) * 3 + (c : ℚ) * 5 := by
    have hv' : (0 : ℚ) ≤ (v : ℚ) := by exact_mod_cast hv
    have hl' : (0 : ℚ) ≤ (l : ℚ) := by exact_mod_cast hl
    have hc' : (0 : ℚ) ≤ (c : ℚ) := by exact_mod_cast hc
    linarith
  have hmax : (0 : ℚ) < (if lookupD s.community_max_engagement community_id 1 ≤ 0 then 1
      else lookupD s.community_max_engagement community_id 1) := by
    split
    · exact one_pos
    · rename_i h
      exact lt_of_not_le h
  refine ⟨rfl, ?_, ?_, ?_⟩
  · intro h
    have h1 : lookupD s.community_max_engagement community_id 1 = 1 := by
      simp [lookupD, h]
    simp only [compute_popularity_score, h1]
    norm_num
  · simp only [compute_popularity_score]
    refine le_min (by norm_num) ?_
    exact div_nonneg heng (le_of_lt hmax)
  · simp only [compute_popularity_score]
    exact min_le_left 1 _

/-- Witness for C7: a post with 1 view and community maximum 10 scores
`1/10`, inside `[0, 1]`. -/
theorem C7_popularity_score_witness :
    compute_popularity_score threeCandidateStrategy "c1" 1 0 0 =
      min 1 (((1 : ℚ) + 0 * 3 + 0 * 5) /
        (if lookupD threeCandidateStrategy.community_max_engagement "c1" 1 ≤ 0 then 1
         else lookupD threeCandidateStrategy.community_max_engagement "c1" 1)) ∧
    0 ≤ compute_popularity_score threeCandidateStrategy "c1" 1 0 0 ∧
    compute_popularity_score threeCandidateStrategy "c1" 1 0 0 ≤ 1 := by
  have h := C7_popularity_score threeCandidateStrategy "c1" 1 0 0
    (by decide) (by decide) (by decide)
  exact ⟨by exact_mod_cast h.1, h.2.2.1, h.2.2.2⟩

theorem scoreCandidate_community_id (s : ColdStartStrategy) (followed : List String)
    (ref : ℚ) (post_id : String) (p : PostData) (community_id : String) :
    (scoreCandidate s followed ref post_id p community_id).community_id = community_id := rfl

theorem coldStartCandidates_community_mem (s : ColdStartStrategy) (followed : List String)
    (ref : ℚ) (c : PostCandidate) (hc : c ∈ coldStartCandidates s followed ref) :
    c.community_id ∈ followed := by
  unfold coldStartCandidates at hc
  rw [List.mem_filterMap] at hc
  obtain ⟨pe, hpe, hmatch⟩ := hc
  cases hcid : pe.2.communityId with
  | none => rw [hcid] at hmatch; cases hmatch
  | some cid =>
    rw [hcid] at hmatch
    dsimp only at hmatch
    by_cases hmem : cid ∈ followed
    · rw [if_pos hmem] at hmatch
      injection hmatch with h
      rw [← h, scoreCandidate_community_id]
      exact hmem
    · rw [if_neg hmem] at hmatch
      cases hmatch

/-- C5: every item returned by the cold-start ranking belongs to a
community of the user's resolved followed set, and a user following zero
communities gets the empty list with total 0. -/
theorem C5_cold_start_subset (s : ColdStartStrategy) (user_id : String)
    (limit offset : ℕ) (db : Except Unit (List String)) (ref : ℚ) :
    (∀ r ∈ (get_cold_start_recommendations s user_id limit offset db ref).1,
      r.communityId ∈ get_user_followed_communities s user_id db) ∧
    (get_user_followed_communities s user_id db = [] →
      get_cold_start_recommendations s user_id limit offset db ref = ([], 0)) := by
  constructor
  · intro r hr
    by_cases hf : get_user_followed_communities s user_id db = []
    · simp [get_cold_start_recommendations, hf] at hr
    · simp only [get_cold_start_recommendations, if_neg hf] at hr
      rw [List.mem_map] at hr
      obtain ⟨c, hc, hrc⟩ := hr
      have hc1 : c ∈ sortDescBy (fun c => c.final_score)
          (coldStartCandidates s (get_user_followed_communities s user_id db) ref) :=
        List.mem_of_mem_drop (List.mem_of_mem_take hc)
      have hc2 := (mem_sortDescBy _ _ _).mp hc1
      have hmem := coldStartCandidates_community_mem s _ ref c hc2
      rw [← hrc]
      exact hmem
  · intro hf
    simp [get_cold_start_recommendations, hf]

/-- Witness for C5: a user not in the cache whose real-time lookup finds
no followed communities gets exactly the empty list with total 0. -/
theorem C5_cold_start_subset_witness :
    get_cold_start_recommendations threeCandidateStrategy "nobody" 10 0
      (Except.ok []) 0 = ([], 0) :=
  (C5_cold_start_subset threeCandidateStrategy "nobody" 10 0 (Except.ok []) 0).2 (by decide)

theorem hybridTopIndices_length (scores : ℕ → ℚ) (num_items ttg : ℕ) :
    (hybridTopIndices scores num_items ttg).length = min ttg num_items := by
  simp [hybridTopIndices, length_sortDescBy]

theorem coldStart_page_empty_of_total_le (s : ColdStartStrategy) (user_id : String)
    (limit offset : ℕ) (db : Except Unit (List String)) (ref : ℚ)
    (h : (get_cold_start_recommendations s user_id limit offset db ref).2 ≤ offset) :
    (get_cold_start_recommendations s user_id limit offset db ref).1 = [] := by
  by_cases hf : get_user_followed_communities s user_id db = []
  · simp [get_cold_start_recommendations, hf]
  · simp only [get_cold_start_recommendations, if_neg hf] at h ⊢
    rw [List.drop_eq_nil_of_le h]
    simp

/-- C2 (amended): on both strategies every successful response satisfies
`has_more = (offset + limit < total)` with `total` the returned total, and
`offset ≥ N` (N the generated candidate count) yields an empty items
page; `has_more` is then false on the cold-start path, and on the hybrid
path whenever the corpus holds at least `total_to_generate` items — but
not necessarily when the corpus is smaller (see the counterexample). -/
theorem C2_pagination (s : ColdStartStrategy) (user_id : String)
    (limit offset ttg num_items : ℕ) (db : Except Unit (List String)) (ref : ℚ)
    (scores : ℕ → ℚ) (idx_to_item : List (ℕ × String)) (r1 r2 : RecommendationResponse) :
    (service_get_cold_start_recommendations s user_id limit offset ttg db ref =
        Except.ok r1 →
      r1.pagination.has_more = decide (offset + limit < r1.pagination.total) ∧
      ((get_cold_start_recommendations s user_id limit offset db ref).2 ≤ offset →
        r1.recommendations = [] ∧ r1.pagination.has_more = false)) ∧
    (service_get_hybrid_recommendations scores num_items idx_to_item user_id limit
        offset ttg = Except.ok r2 →
      r2.pagination.has_more = decide (offset + limit < r2.pagination.total) ∧
      ((hybridTopIndices scores num_items ttg).length ≤ offset →
        r2.recommendations = [] ∧ (ttg ≤ num_items → r2.pagination.has_more = false))) := by
  constructor
  · intro hok
    simp only [service_get_cold_start_recommendations] at hok
    split at hok
    · cases hok
    · rw [Except.ok.injEq] at hok
      subst hok
      refine ⟨rfl, ?_⟩
      intro hle
      have hpage := coldStart_page_empty_of_total_le s user_id limit offset db ref hle
      refine ⟨by simp [hpage], ?_⟩
      have hmin : min (get_cold_start_recommendations s user_id limit offset db ref).2 ttg
          ≤ offset + limit :=
        le_trans (le_trans (min_le_left _ _) hle) (Nat.le_add_right offset limit)
      simpa using Nat.not_lt.mpr hmin
  · intro hok
    simp only [service_get_hybrid_recommendations] at hok
    split at hok
    · cases hok
    · rw [Except.ok.injEq] at hok
      subst hok
      refine ⟨rfl, ?_⟩
      intro hle
      refine ⟨by rw [List.drop_eq_nil_of_le hle]; simp, ?_⟩
      intro httg
      have hlen : (hybridTopIndices scores num_items ttg).length = ttg := by
        rw [hybridTopIndices_length]
        omega
      have hmin : ttg ≤ offset + limit := by
        rw [hlen] at hle
        omega
      simpa using Nat.not_lt.mpr hmin

/-- C2 counterexample: on the hybrid path with a single-item corpus and
`total_to_generate = 3`, the request `limit=1, offset=1` is past the end
of the generated list (length 1) yet returns an empty page with
`has_more = true`, because `has_more` compares against
`total_to_generate`, not the generated count. -/
theorem C2_counterexample :
    (hybridTopIndices (fun _ => 0) 1 3).length ≤ 1 ∧
    service_get_hybrid_recommendations (fun _ => 0) 1 [(0, "p0")] "u1" 1 1 3 =
      Except.ok
        { user_id := "u1", recommendations := [],
          pagination := { total := 3, limit := 1, offset := 1, has_more := true },
          strategy := some "hybrid" } :=
  ⟨by decide, rfl⟩

/-- Witness for C2: a cold-start request at `offset = 5` past the three
generated candidates returns the empty page with `has_more = false`. -/
theorem C2_pagination_witness :
    ({ user_id := "u1", recommendations := [],
       pagination := { total := 3, limit := 2, offset := 5, has_more := false },
       strategy := some "cold_start" } : RecommendationResponse).recommendations = [] ∧
    ({ user_id := "u1", recommendations := [],
       pagination := { total := 3, limit := 2, offset := 5, has_more := false },
       strategy := some "cold_start" } : RecommendationResponse).pagination.has_more
      = false := by
  have htot : (get_cold_start_recommendations threeCandidateStrategy "u1" 2 5
      (Except.ok []) 0).2 = 3 := by
    simp [get_cold_start_recommendations, get_user_followed_communities, lookup?,
      threeCandidateStrategy, length_sortDescBy, coldStartCandidates, samplePost]
  have hpage : (get_cold_start_recommendations threeCandidateStrategy "u1" 2 5
      (Except.ok []) 0).1 = [] := by
    apply coldStart_page_empty_of_total_le
    omega
  have hok : service_get_cold_start_recommendations threeCandidateStrategy "u1" 2 5 100
      (Except.ok []) 0 =
      Except.ok
        { user_id := "u1", recommendations := [],
          pagination := { total := 3, limit := 2, offset := 5, has_more := false },
          strategy := some "cold_start" } := by
    simp [service_get_cold_start_recommendations, hpage, htot]
  have h := (C2_pagination threeCandidateStrategy "u1" 2 5 100 1 (Except.ok []) 0
    (fun _ => 0) []
    { user_id := "u1", recommendations := [],
      pagination := { total := 3, limit := 2, offset := 5, has_more := false },
      strategy := some "cold_start" }
    { user_id := "u1", recommendations := [],
      pagination := { total := 3, limit := 2, offset := 5, has_more := false },
      strategy := some "cold_start" }).1 hok
  exact h.2 (by omega)

/-- C3 (amended): the reported total is
`min(candidate count, total_to_generate)` on the cold-start path and
exactly `total_to_generate` on the hybrid path. -/
theorem C3_total (s : ColdStartStrategy) (user_id : String)
    (limit offset ttg num_items : ℕ) (db : Except Unit (List String)) (ref : ℚ)
    (scores : ℕ → ℚ) (idx_to_item : List (ℕ × String)) (r1 r2 : RecommendationResponse) :
    (service_get_cold_start_recommendations s user_id limit offset ttg db ref =
        Except.ok r1 →
      r1.pagination.total =
        min (get_cold_start_recommendations s user_id limit offset db ref).2 ttg) ∧
    (service_get_hybrid_recommendations scores num_items idx_to_item user_id limit
        offset ttg = Except.ok r2 →
      r2.pagination.total = ttg) := by
  constructor
  · intro hok
    simp only [service_get_cold_start_recommendations] at hok
    split at hok
    · cases hok
    · rw [Except.ok.injEq] at hok
      subst hok
      rfl
  · intro hok
    simp only [service_get_hybrid_recommendations] at hok
    split at hok
    · cases hok
    · rw [Except.ok.injEq] at hok
      subst hok
      rfl

/-- C3 counterexample: three followed-community candidates with
`total_to_generate = 2` report total 2, not the candidate count 3 the
claim requires for the cold-start path. -/
theorem C3_counterexample :
    (get_cold_start_recommendations threeCandidateStrategy "u1" 1 0 (Except.ok []) 0).2
      = 3 ∧
    respTotal (service_get_cold_start_recommendations threeCandidateStrategy "u1" 1 0 2
      (Except.ok []) 0) = some 2 ∧
    respTotal (service_get_cold_start_recommendations threeCandidateStrategy "u1" 1 0 2
      (Except.ok []) 0) ≠ some 3 := by
  have htot : (get_cold_start_recommendations threeCandidateStrategy "u1" 1 0
      (Except.ok []) 0).2 = 3 := by
    simp [get_cold_start_recommendations, get_user_followed_communities, lookup?,
      threeCandidateStrategy, length_sortDescBy, coldStartCandidates, samplePost]
  have hne : (get_cold_start_recommendations threeCandidateStrategy "u1" 1 0
      (Except.ok []) 0).1 ≠ [] := by
    have hlen : (get_cold_start_recommendations threeCandidateStrategy "u1" 1 0
        (Except.ok []) 0).1.length = 1 := by
      simp [get_cold_start_recommendations, get_user_followed_communities, lookup?,
        threeCandidateStrategy, length_sortDescBy, coldStartCandidates, samplePost]
    intro h
    rw [h] at hlen
    simp at hlen
  have hresp : respTotal (service_get_cold_start_recommendations threeCandidateStrategy
      "u1" 1 0 2 (Except.ok []) 0) = some 2 := by
    simp [service_get_cold_start_recommendations, respTotal, hne, htot]
  refine ⟨htot, hresp, ?_⟩
  rw [hresp]
  decide

/-- Witness for C3: a hybrid response over a one-item corpus with
`total_to_generate = 5` reports total 5. -/
theorem C3_total_witness :
    ({ user_id := "u1",
       recommendations := [{ post_id := "p0", score := 0 }],
       pagination := { total := 5, limit := 1, offset := 0, has_more := true },
       strategy := some "hybrid" } : RecommendationResponse).pagination.total = 5 :=
  (C3_total threeCandidateStrategy "u1" 1 0 5 1 (Except.ok []) 0 (fun _ => 0) [(0, "p0")]
    { user_id := "u1",
      recommendations := [{ post_id := "p0", score := 0 }],
      pagination := { total := 5, limit := 1, offset := 0, has_more := true },
      strategy := some "hybrid" }
    { user_id := "u1",
      recommendations := [{ post_id := "p0", score := 0 }],
      pagination := { total := 5, limit := 1, offset := 0, has_more := true },
      strategy := some "hybrid" }).2 rfl

/-- C8: each strategy fails with `NoRecommendationsException` exactly when
its paginated slice is empty at offset 0; the router translates that
failure into a successful envelope with an empty list, total 0 and
`has_more = false`; any ordinary success — including an empty page at
`offset > 0` — passes through unchanged. -/
theorem C8_no_recommendations (s : ColdStartStrategy) (user_id : String)
    (limit offset ttg num_items : ℕ) (db : Except Unit (List String)) (ref : ℚ)
    (scores : ℕ → ℚ) (idx_to_item : List (ℕ × String)) (r : RecommendationResponse) :
    (service_get_cold_start_recommendations s user_id limit offset ttg db ref =
        Except.error (RecError.noRecommendations user_id) ↔
      (get_cold_start_recommendations s user_id limit offset db ref).1 = [] ∧
        offset = 0) ∧
    (service_get_hybrid_recommendations scores num_items idx_to_item user_id limit
        offset ttg = Except.error (RecError.noRecommendations user_id) ↔
      ((hybridTopIndices scores num_items ttg).drop offset).take limit = [] ∧
        offset = 0) ∧
    route_get_user_recommendations user_id limit offset
        (Except.error (RecError.noRecommendations user_id)) =
      RouterOutcome.success
        { user_id := user_id, recommendations := [],
          pagination := { total := 0, limit := limit, offset := offset,
                          has_more := false },
          strategy := none } ∧
    route_get_user_recommendations user_id limit offset (Except.ok r) =
      RouterOutcome.success r := by
  refine ⟨?_, ?_, rfl, rfl⟩
  · simp only [service_get_cold_start_recommendations]
    split
    · rename_i h
      exact iff_of_true rfl h
    · rename_i h
      exact iff_of_false (by simp) h
  · simp only [service_get_hybrid_recommendations]
    split
    · rename_i h
      exact iff_of_true rfl h
    · rename_i h
      exact iff_of_false (by simp) h

/-- Witness for C8: a known user following zero communities makes the
cold-start service fail with `NoRecommendationsException` at offset 0,
and the router turns exactly that failure into a success envelope. -/
theorem C8_no_recommendations_witness :
    service_get_cold_start_recommendations threeCandidateStrategy "nobody" 10 0 100
      (Except.ok []) 0 = Except.error (RecError.noRecommendations "nobody") :=
  (C8_no_recommendations threeCandidateStrategy "nobody" 10 0 100 1 (Except.ok []) 0
    (fun _ => 0) []
    { user_id := "nobody", recommendations := [],
      pagination := { total := 0, limit := 10, offset := 0, has_more := false },
      strategy := none }).1.mpr ⟨by decide, rfl⟩

/-- C10: for a user absent from the startup cache, a raised error in the
real-time existence check makes `is_known_user` return false, so the
orchestrator fails with `UserNotFoundException` instead of a database
error. -/
theorem C10_db_outage_user_not_found (mgr : ModelManagerState) (user_id : String)
    (limit offset ttg : ℕ) (dbFollowed : Except Unit (List String)) (ref : ℚ)
    (scores : ℕ → ℚ)
    (hcache : user_id ∉ mgr.all_users) :
    is_known_user mgr user_id (Except.error ()) = false ∧
    get_user_recommendations mgr user_id limit offset ttg (Except.error ()) dbFollowed
        ref scores = Except.error (RecError.userNotFound user_id) := by
  have h1 : is_known_user mgr user_id (Except.error ()) = false := by
    simp [is_known_user, hcache]
  refine ⟨h1, ?_⟩
  simp [get_user_recommendations, h1]

/-- Witness for C10: user `u2` is not in the cache, the existence check
raises, and the request fails with `UserNotFoundException`. -/
theorem C10_db_outage_user_not_found_witness :
    get_user_recommendations loadedManager "u2" 20 0 100 (Except.error ())
      (Except.ok []) 0 (fun _ => 0) = Except.error (RecError.userNotFound "u2") :=
  (C10_db_outage_user_not_found loadedManager "u2" 20 0 100 (Except.ok []) 0
    (fun _ => 0) (by decide)).2

/-- C1 (amended): a reload whose very first step (the artifact read)
raises fails with `ModelNotLoadedException` and leaves the manager state
completely untouched; when the load fails at a later step, the fields
already assigned remain mutated (no rollback) — see the counterexample. -/
theorem C1_reload_failure_first_step (mgr : ModelManagerState) (o : LoadOracle)
    (p : String) (e : String)
    (hpath : mgr.model_path = some p)
    (hupd : check_model_file_updated mgr o.file_mtime = true)
    (hfail : o.load_model = Except.error e) :
    reload_model mgr o =
      (Except.error ("Model reload failed: " ++ ("Failed to load model: " ++ e)),
        mgr) := by
  simp [reload_model, load_recommendation_model, hpath, hupd, hfail]

/-- Witness for C1: with a newer artifact file whose read raises, reload
fails and the state is returned unchanged. -/
theorem C1_reload_failure_first_step_witness :
    reload_model loadedManager oracleModelFileBroken =
      (Except.error ("Model reload failed: " ++
        ("Failed to load model: " ++ "corrupt pickle")), loadedManager) :=
  C1_reload_failure_first_step loadedManager oracleModelFileBroken "hybrid_model.pkl"
    "corrupt pickle" rfl (by decide) rfl

/-- C1 counterexample: when the artifact read succeeds but the bulk
database load then raises, the reload fails as claimed, yet the manager's
state is NOT untouched — the model reference has already been replaced
(while the mappings stay old), so predictions after the failed reload do
not behave as before. -/
theorem C1_counterexample :
    (reload_model loadedManager oracleDbDown).1 =
      Except.error ("Model reload failed: " ++
        ("Failed to load model: " ++ "database connection failed")) ∧
    loadedManager.model = some "model-old" ∧
    (reload_model loadedManager oracleDbDown).2.model = some "model-new" ∧
    (reload_model loadedManager oracleDbDown).2.user_to_idx =
      loadedManager.user_to_idx ∧
    (reload_model loadedManager oracleDbDown).2 ≠ loadedManager := by
  refine ⟨rfl, rfl, rfl, rfl, ?_⟩
  intro h
  have hm := congrArg ModelManagerState.model h
  rw [show (reload_model loadedManager oracleDbDown).2.model = some "model-new"
    from rfl] at hm
  rw [show loadedManager.model = some "model-old" from rfl] at hm
  exact absurd hm (by decide)

/-- C9 (amended): a reload with the recorded modification time unchanged
returns `{reloaded: false}` with no state change — twice in a row; a
reload with a strictly NEWER file whose load succeeds returns
`{reloaded: true}` and installs the new user mapping, so subsequent
user-index lookups reflect the new artifact. (A file whose timestamp
changed to an older value does not trigger a reload — see the
counterexample.) -/
theorem C9_reload_semantics (mgr : ModelManagerState) (oSame oNew : LoadOracle)
    (p : String) (m t : ℚ) (b : LoadedBundle) (ds : Dataset) (uf itf : String)
    (db : DbBulk)
    (hpath : mgr.model_path = some p)
    (hmt : mgr.model_mtime = some m)
    (hsame : oSame.file_mtime = some m)
    (hnewer : oNew.file_mtime = some t) (hgt : m < t)
    (hlm : oNew.load_model = Except.ok b)
    (hds : b.savedDataset = some ds) (huf : b.savedUserFeatures = some uf)
    (hitf : b.savedItemFeatures = some itf)
    (hdb : oNew.load_db = Except.ok db) :
    reload_model mgr oSame =
      (Except.ok { reloaded := false, reason := "Model file not modified" }, mgr) ∧
    reload_model (reload_model mgr oSame).2 oSame =
      (Except.ok { reloaded := false, reason := "Model file not modified" }, mgr) ∧
    (reload_model mgr oNew).1 =
      Except.ok { reloaded := true, reason := "Model file modified" } ∧
    (reload_model mgr oNew).2.user_to_idx = ds.userMapping := by
  have hchk_same : check_model_file_updated mgr oSame.file_mtime = false := by
    simp [check_model_file_updated, hpath, hsame, hmt]
  have h1 : reload_model mgr oSame =
      (Except.ok { reloaded := false, reason := "Model file not modified" }, mgr) := by
    simp [reload_model, hpath, hchk_same]
  have hchk_new : check_model_file_updated mgr oNew.file_mtime = true := by
    simp [check_model_file_updated, hpath, hnewer, hmt, hgt]
  refine ⟨h1, ?_, ?_, ?_⟩
  · rw [h1]
    exact h1
  · obtain ⟨bm, bds, buf, bitf⟩ := b
    simp only at hds huf hitf
    subst hds huf hitf
    simp [reload_model, hpath, hchk_new, load_recommendation_model, hlm, hdb]
  · obtain ⟨bm, bds, buf, bitf⟩ := b
    simp only at hds huf hitf
    subst hds huf hitf
    simp [reload_model, hpath, hchk_new, load_recommendation_model, hlm, hdb,
      initialize_cold_start_strategy, ColdStartStrategy.load_data]

/-- C9 counterexample: the file's modification time HAS changed (to an
older value than recorded — an older artifact restored over the current
one), yet reload reports `{reloaded: false}` because the source only
triggers on a strictly newer timestamp. -/
theorem C9_counterexample :
    oracleOlderFile.file_mtime = some 50 ∧
    loadedManager.model_mtime = some 100 ∧
    (50 : ℚ) ≠ 100 ∧
    reload_model loadedManager oracleOlderFile =
      (Except.ok { reloaded := false, reason := "Model file not modified" },
        loadedManager) := by
  refine ⟨rfl, rfl, by norm_num, rfl⟩

/-- Witness for C9: with an unchanged timestamp the reload no-ops, and
after a successful reload of a strictly newer artifact the user mapping
is the new one (`u2`). -/
theorem C9_reload_semantics_witness :
    reload_model loadedManager oracleUnchanged =
      (Except.ok { reloaded := false, reason := "Model file not modified" },
        loadedManager) ∧
    (reload_model loadedManager oracleFreshSuccess).2.user_to_idx = [("u2", 0)] := by
  have h := C9_reload_semantics loadedManager oracleUnchanged oracleFreshSuccess
    "hybrid_model.pkl" 100 200
    { model := "model-new"
      savedDataset := some { userMapping := [("u2", 0)], itemMapping := [("p2", 0)] }
      savedUserFeatures := some "uf-new"
      savedItemFeatures := some "if-new" }
    { userMapping := [("u2", 0)], itemMapping := [("p2", 0)] } "uf-new" "if-new"
    { users := ["u1", "u2"], posts := [], interactions := 0, community_followers := [] }
    rfl rfl rfl rfl (by norm_num) rfl rfl rfl rfl rfl
  exact ⟨h.1, h.2.2.2⟩

end Ventidole
